import Mathlib

/-!
Shallow embedding of the ace-arena game server (`server.js`).

JavaScript `Map`s keyed by strings are modelled as association lists that
preserve insertion order (`Map.set` updates in place, `Map.get` finds the
unique binding).  JS `null`/`undefined` move slots are modelled with
`Option`; JS truthiness of move strings is the predicate `truthy`
(`null` and the empty string are falsy).  Randomness (`Math.random` in
`rollDice`, `getAIMove`, `generateId`) is threaded in explicitly: dice
rolls and the AI move arrive through an `Entropy` record and fresh game
ids are passed as arguments.  Wall-clock time (`Date.now()` in
`createdAt`) is modelled as the constant 0.  A runtime `TypeError`
thrown by a handler (an uncaught exception) is modelled with `Except`.
-/

namespace AceArena

/-- JS `Map.get`: first (unique) binding for a key. -/
def mapGet {α : Type} : List (String × α) → String → Option α
  | [], _ => none
  | (k', v) :: rest, k => if k' = k then some v else mapGet rest k

/-- JS `Map.set`: replace in place when the key exists, append otherwise. -/
def mapSet {α : Type} : List (String × α) → String → α → List (String × α)
  | [], k, v => [(k, v)]
  | (k', v') :: rest, k, v =>
      if k' = k then (k, v) :: rest else (k', v') :: mapSet rest k v

/-- JS `Map.delete`. -/
def mapDel {α : Type} : List (String × α) → String → List (String × α)
  | [], _ => []
  | (k', v') :: rest, k => if k' = k then rest else (k', v') :: mapDel rest k

/-- JS `Map.has`. -/
def mapHas {α : Type} (m : List (String × α)) (k : String) : Bool :=
  (mapGet m k).isSome

/-- One side of a game (`game.player1` / `game.player2` in `createGame`).
`player1` carries no `isAI` field in the source; reading it yields the
falsy `undefined`, modelled as `isAI = false`. -/
structure Side where
  odId : String
  name : String
  score : Nat
  move : Option String
  isAI : Bool
deriving DecidableEq, Repr

/-- A game session (the object built by `createGame`).  `createdAt`
(`Date.now()`) is kept as a field but time is modelled as 0. -/
structure Game where
  id : String
  type : String
  player1 : Side
  player2 : Side
  status : String
  round : Nat
  createdAt : Nat
deriving DecidableEq, Repr

/-- A registry entry in the `players` map. -/
structure Player where
  odId : String
  name : String
  currentGame : Option String
deriving DecidableEq, Repr

/-- A `leaderboard` map entry. -/
structure LBEntry where
  odId : String
  name : String
  wins : Nat
  losses : Nat
  score : Nat
deriving DecidableEq, Repr

/-- The fixed `queues` object: exactly the keys `dice` and `rps`. -/
structure Queues where
  dice : List String
  rps : List String
deriving DecidableEq, Repr

/-- The global mutable state of the server module. -/
structure ServerState where
  games : List (String × Game)
  players : List (String × Player)
  queues : Queues
  leaderboard : List (String × LBEntry)
deriving DecidableEq, Repr

/-- `queues[gameType]`: defined only for the two real keys; any other
game type reads as JS `undefined` (`none`). -/
def queuesGet (q : Queues) : String → Option (List String)
  | "dice" => some q.dice
  | "rps" => some q.rps
  | _ => none

/-- Assignment `queues[gameType] = l` for a recognized game type. -/
def queuesSet (q : Queues) (t : String) (l : List String) : Queues :=
  if t = "dice" then { q with dice := l }
  else if t = "rps" then { q with rps := l }
  else q

/-- Display payload of a round: a dice roll (number) or an RPS move (string). -/
inductive Display where
  | num (n : Nat)
  | str (s : String)
deriving DecidableEq, Repr

/-- Outbound socket events, with their payload fields.  `Option` fields
reflect JS values that may be `undefined` for unknown game types. -/
inductive Event where
  | registered (playerId : String) (name : String) (lb : List LBEntry)
  | errorMsg (message : String)
  | queued (gameType : String) (position : Nat)
  | leftQueue (gameType : String)
  | gameStart (gameId : String) (gameType : String) (youName : String)
      (youScore : Nat) (oppName : String) (oppScore : Nat) (oppIsAI : Bool)
  | waiting
  | opponentMoved
  | roundResult (round : Nat) (yourMove : Option Display)
      (opponentMove : Option Display) (result : Option String)
      (youScore : Nat) (oppScore : Nat)
  | opponentLeft (message : String)
  | leftGame
  | leaderboardEv (entries : List LBEntry)
deriving DecidableEq, Repr

/-- An uncaught JS runtime exception escaping a handler. -/
inductive JsError where
  | typeError (message : String)
deriving DecidableEq, Repr

/-- The random draws a single `move` event may consume: the AI's RPS
move (`getAIMove`) and the two dice rolls (`rollDice`, each in 1..6). -/
structure Entropy where
  aiMove : String
  p1Roll : Nat
  p2Roll : Nat
deriving DecidableEq, Repr

/-- JS truthiness of a recorded move slot: `null` and `""` are falsy. -/
def truthy : Option String → Bool
  | none => false
  | some s => s ≠ ""

/-- The `wins` lookup table inside `getRPSResult`; unknown keys read as
`undefined` (`none`). -/
def jsWins : String → Option String
  | "rock" => some "scissors"
  | "paper" => some "rock"
  | "scissors" => some "paper"
  | _ => none

/-- `getRPSResult(p1, p2)` (server.js lines 26-30).  Arguments are the
raw move slots (`null` possible).  `wins[p1] === p2` is a strict JS
comparison: `undefined === null` and `undefined === "x"` are false. -/
def getRPSResult (p1 p2 : Option String) : String :=
  if p1 = p2 then "tie"
  else
    match p1.bind jsWins, p2 with
    | some w, some m2 => if w = m2 then "p1" else "p2"
    | _, _ => "p2"

/-- `updateLeaderboard(odId, won)` (server.js lines 327-337). -/
def updateLeaderboard (lb : List (String × LBEntry)) (odId : String)
    (won : Bool) : List (String × LBEntry) :=
  match mapGet lb odId with
  | none => lb
  | some e =>
      if won then mapSet lb odId { e with wins := e.wins + 1, score := e.score + 10 }
      else mapSet lb odId { e with losses := e.losses + 1 }

/-- Stable insertion by descending score, matching the comparator
`(a, b) => b.score - a.score`. -/
def insertByScore (e : LBEntry) : List LBEntry → List LBEntry
  | [] => [e]
  | x :: xs => if x.score < e.score then e :: x :: xs else x :: insertByScore e xs

def sortByScoreDesc : List LBEntry → List LBEntry
  | [] => []
  | x :: xs => insertByScore x (sortByScoreDesc xs)

/-- `getTopPlayers(limit)` (server.js lines 339-343). -/
def getTopPlayers (lb : List (String × LBEntry)) (limit : Nat) : List LBEntry :=
  (sortByScoreDesc (lb.map Prod.snd)).take limit

/-- `data.name || default` in the register handler: an absent or empty
name falls back to the generated one. -/
def jsName (sid : String) : Option String → String
  | some s => if s = "" then "Player_" ++ sid.take 4 else s
  | none => "Player_" ++ sid.take 4

/-- The `register` handler (server.js lines 52-71).  It always builds a
fresh record and `players.set` overwrites any existing one; the
leaderboard entry is created only if absent. -/
def registerHandler (st : ServerState) (sid : String) (n : Option String) :
    ServerState × List (String × Event) :=
  let name := jsName sid n
  let pl : Player := ⟨sid, name, none⟩
  let lb' := if mapHas st.leaderboard sid then st.leaderboard
             else mapSet st.leaderboard sid ⟨sid, name, 0, 0, 0⟩
  ({ st with players := mapSet st.players sid pl, leaderboard := lb' },
   [(sid, Event.registered sid name (getTopPlayers lb' 10))])

/-- `createGame(type, player1, player2, isAI)` (server.js lines 33-45). -/
def createGame (gid ty : String) (p1 p2 : Player) (isAI : Bool) : Game :=
  { id := gid, type := ty,
    player1 := ⟨p1.odId, p1.name, 0, none, false⟩,
    player2 := ⟨p2.odId, p2.name, 0, none, isAI⟩,
    status := "playing", round := 1, createdAt := 0 }

/-- The `join_queue` handler (server.js lines 74-125).  For an
unrecognized game type the duplicate check `queues[gameType]?.includes`
short-circuits harmlessly, but `queues[gameType].push` then throws a
`TypeError` — modelled as `Except.error`.  `gid` is the fresh id a
created game would receive. -/
def joinQueueHandler (st : ServerState) (sid gameType gid : String) :
    Except JsError (ServerState × List (String × Event)) :=
  match mapGet st.players sid with
  | none => .ok (st, [])
  | some _ =>
    match queuesGet st.queues gameType with
    | none => .error (JsError.typeError "Cannot read properties of undefined (reading push)")
    | some q =>
      if sid ∈ q then .ok (st, [(sid, Event.errorMsg "Already in queue")])
      else
        let q1 := q ++ [sid]
        let evQ : String × Event := (sid, Event.queued gameType q1.length)
        match q1 with
        | p1Id :: p2Id :: rest =>
          let st1 := { st with queues := queuesSet st.queues gameType rest }
          match mapGet st1.players p1Id, mapGet st1.players p2Id with
          | some p1, some p2 =>
            let game := createGame gid gameType p1 p2 false
            let players' := mapSet (mapSet st1.players p1Id { p1 with currentGame := some gid })
                              p2Id { p2 with currentGame := some gid }
            .ok ({ st1 with games := mapSet st1.games gid game, players := players' },
                 [evQ,
                  (p1Id, Event.gameStart gid gameType p1.name 0 p2.name 0 false),
                  (p2Id, Event.gameStart gid gameType p2.name 0 p1.name 0 false)])
          | _, _ => .ok (st1, [evQ])
        | _ => .ok ({ st with queues := queuesSet st.queues gameType q1 }, [evQ])

/-- The `leave_queue` handler (server.js lines 128-132); it too throws
on an unrecognized game type (`undefined.filter`). -/
def leaveQueueHandler (st : ServerState) (sid gameType : String) :
    Except JsError (ServerState × List (String × Event)) :=
  match queuesGet st.queues gameType with
  | none => .error (JsError.typeError "Cannot read properties of undefined (reading filter)")
  | some q =>
    .ok ({ st with queues := queuesSet st.queues gameType (q.filter (fun i => i ≠ sid)) },
         [(sid, Event.leftQueue gameType)])

/-- The `play_ai` handler (server.js lines 135-153). -/
def playAIHandler (st : ServerState) (sid gameType gid : String) :
    ServerState × List (String × Event) :=
  match mapGet st.players sid with
  | none => (st, [])
  | some pl =>
    let game := createGame gid gameType pl ⟨"AI", "AI Opponent", none⟩ true
    ({ st with games := mapSet st.games gid game,
               players := mapSet st.players sid { pl with currentGame := some gid } },
     [(sid, Event.gameStart gid gameType pl.name 0 "AI Opponent" 0 true)])

/-- The per-branch computation inside `processRound` (server.js lines
285-314): per-side results, display payloads, and the new scores.  For
a game type other than `dice`/`rps` all four result/display values stay
`undefined`. -/
structure RoundCalc where
  p1Result : Option String
  p2Result : Option String
  p1Display : Option Display
  p2Display : Option Display
  s1 : Nat
  s2 : Nat
deriving DecidableEq, Repr

def roundCalc (g : Game) (ent : Entropy) : RoundCalc :=
  if g.type = "dice" then
    if ent.p1Roll > ent.p2Roll then
      ⟨some "win", some "lose", some (.num ent.p1Roll), some (.num ent.p2Roll),
       g.player1.score + 10, g.player2.score⟩
    else if ent.p1Roll < ent.p2Roll then
      ⟨some "lose", some "win", some (.num ent.p1Roll), some (.num ent.p2Roll),
       g.player1.score, g.player2.score + 10⟩
    else
      ⟨some "tie", some "tie", some (.num ent.p1Roll), some (.num ent.p2Roll),
       g.player1.score, g.player2.score⟩
  else if g.type = "rps" then
    let r := getRPSResult g.player1.move g.player2.move
    if r = "p1" then
      ⟨some "win", some "lose", g.player1.move.map .str, g.player2.move.map .str,
       g.player1.score + 15, g.player2.score⟩
    else if r = "p2" then
      ⟨some "lose", some "win", g.player1.move.map .str, g.player2.move.map .str,
       g.player1.score, g.player2.score + 15⟩
    else
      ⟨some "tie", some "tie", g.player1.move.map .str, g.player2.move.map .str,
       g.player1.score, g.player2.score⟩
  else
    ⟨none, none, none, none, g.player1.score, g.player2.score⟩

/-- What `processRound(game)` (server.js lines 280-325) hands back to
the move handler: `isPlayer1` is the literal `true` of line 324. -/
structure RoundOutcome where
  p1Move : Option Display
  p2Move : Option Display
  p1Result : Option String
  p2Result : Option String
  isPlayer1 : Bool
deriving DecidableEq, Repr

/-- `processRound` mutates the game (scores, `round++`) and, for non-AI
non-tie outcomes (`!game.player2.isAI && p1Result !== 'tie'`, where an
`undefined` result also passes the `!== 'tie'` test), the leaderboard. -/
def processRound (g : Game) (lb : List (String × LBEntry)) (ent : Entropy) :
    Game × List (String × LBEntry) × RoundOutcome :=
  let rc := roundCalc g ent
  ({ g with player1 := { g.player1 with score := rc.s1 },
            player2 := { g.player2 with score := rc.s2 },
            round := g.round + 1 },
   if g.player2.isAI = false ∧ rc.p1Result ≠ some "tie" then
     updateLeaderboard (updateLeaderboard lb g.player1.odId (decide (rc.p1Result = some "win")))
       g.player2.odId (decide (rc.p2Result = some "win"))
   else lb,
   ⟨rc.p1Display, rc.p2Display, rc.p1Result, rc.p2Result, true⟩)

/-- `opponent.move = …` through the alias fixed at the top of the move
handler: the opponent is `player2` iff the caller matched `player1`. -/
def setOppMove (g : Game) (isP1 : Bool) (m : Option String) : Game :=
  if isP1 then { g with player2 := { g.player2 with move := m } }
  else { g with player1 := { g.player1 with move := m } }

/-- `true` iff some `round_result` event occurs in an emission list. -/
def hasRoundResult (evs : List (String × Event)) : Bool :=
  evs.any fun e => match e.2 with | .roundResult .. => true | _ => false

/-- The `move` handler (server.js lines 156-221).  Note, faithfully to
the source: (1) there is no participant check — any caller whose id is
not `player1.odId` is treated as `player2`; (2) resolution fires only
when both recorded slots are truthy; (3) the emitted `yourMove` /
`opponentMove` and the submitter's `result` select sides through
`result.isPlayer1`, which `processRound` hard-codes to `true`, while
the opponent's `result` and both `scores` use the local `isPlayer1`. -/
def moveHandler (st : ServerState) (sid gid move : String) (ent : Entropy) :
    ServerState × List (String × Event) :=
  match mapGet st.games gid, mapGet st.players sid with
  | some game, some _ =>
    if game.status = "playing" then
      let isP1 : Bool := decide (game.player1.odId = sid)
      let g1 := if isP1 then { game with player1 := { game.player1 with move := some move } }
                else { game with player2 := { game.player2 with move := some move } }
      let oppIsAI := if isP1 then g1.player2.isAI else g1.player1.isAI
      let g2 := if oppIsAI then
                  if g1.type = "dice" then setOppMove g1 isP1 (some "roll")
                  else if g1.type = "rps" then setOppMove g1 isP1 (some ent.aiMove)
                  else g1
                else g1
      let curMove := if isP1 then g2.player1.move else g2.player2.move
      let oppMove := if isP1 then g2.player2.move else g2.player1.move
      let oppId := if isP1 then g2.player2.odId else g2.player1.odId
      if truthy curMove && truthy oppMove then
        match processRound g2 st.leaderboard ent with
        | (g3, lb', out) =>
          let evSelf : String × Event :=
            (sid, Event.roundResult (g3.round - 1)
              (if out.isPlayer1 then out.p1Move else out.p2Move)
              (if out.isPlayer1 then out.p2Move else out.p1Move)
              (if out.isPlayer1 then out.p1Result else out.p2Result)
              (if isP1 then g3.player1.score else g3.player2.score)
              (if isP1 then g3.player2.score else g3.player1.score))
          let evOpp : String × Event :=
            (oppId, Event.roundResult (g3.round - 1)
              (if !out.isPlayer1 then out.p1Move else out.p2Move)
              (if !out.isPlayer1 then out.p2Move else out.p1Move)
              (if !isP1 then out.p1Result else out.p2Result)
              (if !isP1 then g3.player1.score else g3.player2.score)
              (if !isP1 then g3.player2.score else g3.player1.score))
          let g4 := { g3 with player1 := { g3.player1 with move := none },
                              player2 := { g3.player2 with move := none } }
          ({ st with games := mapSet st.games gid g4, leaderboard := lb' },
           if oppIsAI then [evSelf] else [evSelf, evOpp])
      else
        ({ st with games := mapSet st.games gid g2 },
         if oppIsAI then [] else [(sid, Event.waiting), (oppId, Event.opponentMoved)])
    else (st, [(sid, Event.errorMsg "Invalid game state")])
  | _, _ => (st, [(sid, Event.errorMsg "Invalid game state")])

/-- The `leave_game` handler (server.js lines 224-245).  It never
inspects `game.status`: even an ended game yields a forfeit update. -/
def leaveGameHandler (st : ServerState) (sid : String) :
    ServerState × List (String × Event) :=
  match mapGet st.players sid with
  | none => (st, [])
  | some pl =>
    match pl.currentGame with
    | none => (st, [])
    | some gid =>
      match mapGet st.games gid with
      | none =>
        ({ st with players := mapSet st.players sid { pl with currentGame := none } },
         [(sid, Event.leftGame)])
      | some g =>
        let opp := if g.player1.odId = sid then g.player2 else g.player1
        let lb' := if opp.isAI then st.leaderboard
                   else updateLeaderboard (updateLeaderboard st.leaderboard opp.odId true) sid false
        let evs := if opp.isAI then ([] : List (String × Event))
                   else [(opp.odId, Event.opponentLeft "Opponent left the game")]
        ({ st with games := mapSet st.games gid { g with status := "ended" },
                   leaderboard := lb',
                   players := mapSet st.players sid { pl with currentGame := none } },
         evs ++ [(sid, Event.leftGame)])

/-- Queue purge on disconnect (`Object.keys(queues).forEach` filter). -/
def purgeQueues (q : Queues) (sid : String) : Queues :=
  ⟨q.dice.filter (fun i => i ≠ sid), q.rps.filter (fun i => i ≠ sid)⟩

/-- The games-table effect of a disconnect: end the current game only
when it is still `playing`; the opponent is notified only if human.
No leaderboard call occurs anywhere on this path. -/
def disconnectGames (st : ServerState) (sid : String) (pl : Player) :
    List (String × Game) × List (String × Event) :=
  match pl.currentGame with
  | none => (st.games, [])
  | some gid =>
    match mapGet st.games gid with
    | none => (st.games, [])
    | some g =>
      if g.status = "playing" then
        let opp := if g.player1.odId = sid then g.player2 else g.player1
        (mapSet st.games gid { g with status := "ended" },
         if opp.isAI then [] else [(opp.odId, Event.opponentLeft "Opponent disconnected")])
      else (st.games, [])

/-- The `disconnect` handler (server.js lines 253-276). -/
def disconnectHandler (st : ServerState) (sid : String) :
    ServerState × List (String × Event) :=
  match mapGet st.players sid with
  | none => (st, [])
  | some pl =>
    ({ st with players := mapDel st.players sid,
               queues := purgeQueues st.queues sid,
               games := (disconnectGames st sid pl).1 },
     (disconnectGames st sid pl).2)

/-- The `get_leaderboard` handler (server.js lines 248-250). -/
def getLeaderboardHandler (st : ServerState) (sid : String) :
    ServerState × List (String × Event) :=
  (st, [(sid, Event.leaderboardEv (getTopPlayers st.leaderboard 10))])

/-- Iterated dice rounds: feeds one roll pair per resolved round through
`processRound`, threading game and leaderboard (the submitted move value
is ignored by the dice rule, so the entropy's `aiMove` is immaterial). -/
def runDiceRounds : List (Nat × Nat) → Game → List (String × LBEntry) →
    Game × List (String × LBEntry)
  | [], g, lb => (g, lb)
  | (a, b) :: rest, g, lb =>
      runDiceRounds rest (processRound g lb ⟨"roll", a, b⟩).1
        (processRound g lb ⟨"roll", a, b⟩).2.1


/-! ### Concrete fixtures used by witnesses and counterexamples -/

/-- A tiny concrete RPS game used to instantiate `C8_rps_resolution`. -/
def exG8 : Game :=
  ⟨"g8", "rps", ⟨"a", "A", 0, some "rock", false⟩,
   ⟨"b", "B", 0, some "scissors", false⟩, "playing", 1, 0⟩

/-- A fresh dice game and roll list instantiating `C9_dice_resolution`. -/
def exG9 : Game :=
  ⟨"g9", "dice", ⟨"a", "A", 0, none, false⟩, ⟨"b", "B", 0, none, false⟩,
   "playing", 1, 0⟩

/-- A fresh human-vs-human RPS session between the registered players
`a` (Alice, player1) and `b` (Bob, player2); `c` (Carol) is registered
but occupies no side of it. -/
def exGameFresh : Game :=
  ⟨"g1", "rps", ⟨"a", "Alice", 0, none, false⟩,
   ⟨"b", "Bob", 0, none, false⟩, "playing", 1, 0⟩

def exStateFresh : ServerState :=
  { games := [("g1", exGameFresh)],
    players := [("a", ⟨"a", "Alice", some "g1"⟩), ("b", ⟨"b", "Bob", some "g1"⟩),
                ("c", ⟨"c", "Carol", none⟩)],
    queues := ⟨[], []⟩,
    leaderboard := [("a", ⟨"a", "Alice", 0, 0, 0⟩), ("b", ⟨"b", "Bob", 0, 0, 0⟩),
                    ("c", ⟨"c", "Carol", 0, 0, 0⟩)] }

/-- The same session after player1 has already recorded the move `rock`. -/
def exGameP1Rock : Game :=
  ⟨"g1", "rps", ⟨"a", "Alice", 0, some "rock", false⟩,
   ⟨"b", "Bob", 0, none, false⟩, "playing", 1, 0⟩

def exStateP1Rock : ServerState :=
  { exStateFresh with games := [("g1", exGameP1Rock)] }

/-- The same session already ended, with both sides still referencing it. -/
def exGameEnded : Game :=
  ⟨"g1", "rps", ⟨"a", "Alice", 0, none, false⟩,
   ⟨"b", "Bob", 0, none, false⟩, "ended", 1, 0⟩

def exStateEnded : ServerState :=
  { exStateFresh with games := [("g1", exGameEnded)] }

end AceArena


namespace AceArena

/-! ### Basic facts about the embedded operations -/

theorem mapGet_mapSet_self {α : Type} (m : List (String × α)) (k : String) (v : α) :
    mapGet (mapSet m k v) k = some v := by
  induction m with
  | nil => simp [mapGet, mapSet]
  | cons p rest ih =>
    obtain ⟨k', v'⟩ := p
    by_cases h : k' = k
    · simp [mapGet, mapSet, h]
    · simp [mapGet, mapSet, h, ih]

theorem mapSet_mapSet_self {α : Type} (m : List (String × α)) (k : String) (v w : α) :
    mapSet (mapSet m k v) k w = mapSet m k w := by
  induction m with
  | nil => simp [mapSet]
  | cons p rest ih =>
    obtain ⟨k', v'⟩ := p
    by_cases h : k' = k
    · simp [mapSet, h]
    · simp [mapSet, h, ih]

theorem mapHas_mapSet_self {α : Type} (m : List (String × α)) (k : String) (v : α) :
    mapHas (mapSet m k v) k = true := by
  simp [mapHas, mapGet_mapSet_self]

theorem processRound_type (g : Game) (lb : List (String × LBEntry)) (ent : Entropy) :
    (processRound g lb ent).1.type = g.type := rfl

theorem processRound_status (g : Game) (lb : List (String × LBEntry)) (ent : Entropy) :
    (processRound g lb ent).1.status = g.status := rfl

theorem processRound_round (g : Game) (lb : List (String × LBEntry)) (ent : Entropy) :
    (processRound g lb ent).1.round = g.round + 1 := rfl

theorem processRound_p1score (g : Game) (lb : List (String × LBEntry)) (ent : Entropy) :
    (processRound g lb ent).1.player1.score = (roundCalc g ent).s1 := rfl

theorem processRound_p2score (g : Game) (lb : List (String × LBEntry)) (ent : Entropy) :
    (processRound g lb ent).1.player2.score = (roundCalc g ent).s2 := rfl

theorem processRound_outcome (g : Game) (lb : List (String × LBEntry)) (ent : Entropy) :
    (processRound g lb ent).2.2 =
      ⟨(roundCalc g ent).p1Display, (roundCalc g ent).p2Display,
       (roundCalc g ent).p1Result, (roundCalc g ent).p2Result, true⟩ := rfl

theorem roundCalc_dice (g : Game) (ent : Entropy) (h : g.type = "dice") :
    roundCalc g ent =
      if ent.p2Roll < ent.p1Roll then
        ⟨some "win", some "lose", some (.num ent.p1Roll), some (.num ent.p2Roll),
         g.player1.score + 10, g.player2.score⟩
      else if ent.p1Roll < ent.p2Roll then
        ⟨some "lose", some "win", some (.num ent.p1Roll), some (.num ent.p2Roll),
         g.player1.score, g.player2.score + 10⟩
      else
        ⟨some "tie", some "tie", some (.num ent.p1Roll), some (.num ent.p2Roll),
         g.player1.score, g.player2.score⟩ := by
  unfold roundCalc
  rw [h]
  simp [gt_iff_lt]

/-- The list of canonical rock-paper-scissors moves. -/
def rpsMoves : List String := ["rock", "paper", "scissors"]

end AceArena

namespace AceArena

/-- Claim C8: The RPS resolution function is total over the 3×3 grid of
canonical moves, antisymmetric (for distinct moves A beats B iff B loses
to A, following rock beats scissors, scissors beats paper, paper beats
rock), has exactly the 3 identical-move pairs as ties, and `processRound`
applies a +15 score delta to the round winner's side only (no score
change on a tie). -/
theorem C8_rps_resolution :
    (∀ m1 ∈ rpsMoves, ∀ m2 ∈ rpsMoves,
        getRPSResult (some m1) (some m2) ∈ (["tie", "p1", "p2"] : List String)) ∧
    (∀ m1 ∈ rpsMoves, ∀ m2 ∈ rpsMoves, m1 ≠ m2 →
        (getRPSResult (some m1) (some m2) = "p1" ↔
         getRPSResult (some m2) (some m1) = "p2")) ∧
    (getRPSResult (some "rock") (some "scissors") = "p1" ∧
     getRPSResult (some "scissors") (some "paper") = "p1" ∧
     getRPSResult (some "paper") (some "rock") = "p1") ∧
    (∀ m1 ∈ rpsMoves, ∀ m2 ∈ rpsMoves,
        (getRPSResult (some m1) (some m2) = "tie" ↔ m1 = m2)) ∧
    (∀ (g : Game) (lb : List (String × LBEntry)) (ent : Entropy) (m1 m2 : String),
        g.type = "rps" → g.player1.move = some m1 → g.player2.move = some m2 →
        m1 ∈ rpsMoves → m2 ∈ rpsMoves →
        (processRound g lb ent).1.player1.score =
          g.player1.score + (if getRPSResult (some m1) (some m2) = "p1" then 15 else 0) ∧
        (processRound g lb ent).1.player2.score =
          g.player2.score + (if getRPSResult (some m1) (some m2) = "p2" then 15 else 0)) := by
  refine ⟨by decide, by decide, by decide, by decide, ?_⟩
  intro g lb ent m1 m2 htype hmv1 hmv2 hm1 hm2
  rw [processRound_p1score, processRound_p2score]
  unfold roundCalc
  rw [htype, hmv1, hmv2]
  simp only [rpsMoves, List.mem_cons, List.not_mem_nil, or_false] at hm1 hm2
  rcases hm1 with rfl | rfl | rfl <;> rcases hm2 with rfl | rfl | rfl <;>
    simp [getRPSResult, jsWins]

theorem C8_rps_resolution_witness :
    "rock" ∈ rpsMoves ∧ "scissors" ∈ rpsMoves ∧
    (processRound exG8 [] ⟨"x", 0, 0⟩).1.player1.score =
      exG8.player1.score +
        (if getRPSResult (some "rock") (some "scissors") = "p1" then 15 else 0) := by
  refine ⟨by decide, by decide, ?_⟩
  exact (C8_rps_resolution.2.2.2.2 exG8 [] ⟨"x", 0, 0⟩ "rock" "scissors"
    rfl rfl rfl (by decide) (by decide)).1

theorem runDiceRounds_score (rolls : List (Nat × Nat)) :
    ∀ (g : Game) (lb : List (String × LBEntry)), g.type = "dice" →
      (runDiceRounds rolls g lb).1.player1.score
          = g.player1.score + 10 * rolls.countP (fun p => decide (p.2 < p.1)) ∧
      (runDiceRounds rolls g lb).1.player2.score
          = g.player2.score + 10 * rolls.countP (fun p => decide (p.1 < p.2)) := by
  induction rolls with
  | nil => intro g lb _; simp [runDiceRounds]
  | cons p rest ih =>
    obtain ⟨a, b⟩ := p
    intro g lb h
    have hstep := ih (processRound g lb ⟨"roll", a, b⟩).1
      (processRound g lb ⟨"roll", a, b⟩).2.1 (by rw [processRound_type]; exact h)
    simp only [runDiceRounds]
    rw [hstep.1, hstep.2, processRound_p1score, processRound_p2score,
      roundCalc_dice g ⟨"roll", a, b⟩ h]
    rcases Nat.lt_trichotomy b a with h1 | h1 | h1
    · simp [h1, Nat.lt_asymm h1, List.countP_cons]
      omega
    · simp [h1, Nat.lt_irrefl, List.countP_cons]
    · simp [h1, Nat.lt_asymm h1, List.countP_cons]
      omega

/-- Claim C9: For a dice round with roll pair (a, b) in [1,6]: a > b
gives side A +10 and side B +0 with win/lose results, a < b the reverse,
a = b a tie with no score change; and after N resolved rounds each
side's score equals 10 times the number of rounds it strictly won. -/
theorem C9_dice_resolution :
    (∀ (g : Game) (lb : List (String × LBEntry)) (ent : Entropy),
        g.type = "dice" →
        1 ≤ ent.p1Roll → ent.p1Roll ≤ 6 → 1 ≤ ent.p2Roll → ent.p2Roll ≤ 6 →
        (ent.p2Roll < ent.p1Roll →
          (processRound g lb ent).1.player1.score = g.player1.score + 10 ∧
          (processRound g lb ent).1.player2.score = g.player2.score ∧
          (processRound g lb ent).2.2.p1Result = some "win" ∧
          (processRound g lb ent).2.2.p2Result = some "lose") ∧
        (ent.p1Roll < ent.p2Roll →
          (processRound g lb ent).1.player1.score = g.player1.score ∧
          (processRound g lb ent).1.player2.score = g.player2.score + 10 ∧
          (processRound g lb ent).2.2.p1Result = some "lose" ∧
          (processRound g lb ent).2.2.p2Result = some "win") ∧
        (ent.p1Roll = ent.p2Roll →
          (processRound g lb ent).1.player1.score = g.player1.score ∧
          (processRound g lb ent).1.player2.score = g.player2.score ∧
          (processRound g lb ent).2.2.p1Result = some "tie" ∧
          (processRound g lb ent).2.2.p2Result = some "tie")) ∧
    (∀ (g : Game) (lb : List (String × LBEntry)) (rolls : List (Nat × Nat)),
        g.type = "dice" → g.player1.score = 0 → g.player2.score = 0 →
        (∀ p ∈ rolls, 1 ≤ p.1 ∧ p.1 ≤ 6 ∧ 1 ≤ p.2 ∧ p.2 ≤ 6) →
        (runDiceRounds rolls g lb).1.player1.score
            = 10 * rolls.countP (fun p => decide (p.2 < p.1)) ∧
        (runDiceRounds rolls g lb).1.player2.score
            = 10 * rolls.countP (fun p => decide (p.1 < p.2))) := by
  constructor
  · intro g lb ent h _ _ _ _
    rw [processRound_p1score, processRound_p2score, processRound_outcome,
      roundCalc_dice g ent h]
    refine ⟨fun h1 => ?_, fun h1 => ?_, fun h1 => ?_⟩
    · simp [h1, Nat.lt_asymm h1]
    · simp [h1, Nat.lt_asymm h1]
    · simp [h1, Nat.lt_irrefl]
  · intro g lb rolls h h1 h2 _
    have := runDiceRounds_score rolls g lb h
    rw [h1, h2] at this
    simpa using this

theorem C9_dice_resolution_witness :
    (runDiceRounds [(3, 5), (6, 2), (4, 4), (6, 1)] exG9 []).1.player1.score
        = 10 * ([(3, 5), (6, 2), (4, 4), (6, 1)] : List (Nat × Nat)).countP
            (fun p => decide (p.2 < p.1)) ∧
    (runDiceRounds [(3, 5), (6, 2), (4, 4), (6, 1)] exG9 []).1.player2.score
        = 10 * ([(3, 5), (6, 2), (4, 4), (6, 1)] : List (Nat × Nat)).countP
            (fun p => decide (p.1 < p.2)) :=
  C9_dice_resolution.2 exG9 [] [(3, 5), (6, 2), (4, 4), (6, 1)]
    rfl rfl rfl (by decide)

end AceArena

namespace AceArena

/-- Claim C10: Round resolution in the move handler fires only when both
recorded pending moves are truthy: a submitted falsy move (the empty
string) is recorded on the caller's side but counts as not-yet-moved, so
it never triggers resolution — and a subsequent move by the other side
of a human-vs-human game does not resolve the round either, so the round
stalls. -/
theorem C10_falsy_move_stalls
    (st : ServerState) (gid sid : String) (g : Game) (pl : Player) (ent : Entropy)
    (hg : mapGet st.games gid = some g)
    (hp : mapGet st.players sid = some pl)
    (hstatus : g.status = "playing")
    (hai1 : g.player1.isAI = false) (hai2 : g.player2.isAI = false)
    (hneq : g.player1.odId ≠ g.player2.odId) :
    (mapGet (moveHandler st sid gid "" ent).1.games gid =
      some (if g.player1.odId = sid
            then { g with player1 := { g.player1 with move := some "" } }
            else { g with player2 := { g.player2 with move := some "" } })) ∧
    hasRoundResult (moveHandler st sid gid "" ent).2 = false ∧
    (∀ (m2 : String) (ent2 : Entropy) (pl2 : Player),
      mapGet (moveHandler st sid gid "" ent).1.players
          (if g.player1.odId = sid then g.player2.odId else g.player1.odId) = some pl2 →
      hasRoundResult (moveHandler (moveHandler st sid gid "" ent).1
          (if g.player1.odId = sid then g.player2.odId else g.player1.odId)
          gid m2 ent2).2 = false) := by
  by_cases hside : g.player1.odId = sid
  · have hmain : moveHandler st sid gid "" ent =
        ({ st with games := (mapSet st.games gid
              { g with player1 := { g.player1 with move := some "" } }) },
         [(sid, Event.waiting), (g.player2.odId, Event.opponentMoved)]) := by
      simp [moveHandler, hg, hp, hstatus, hside, hai2, truthy]
    refine ⟨?_, ?_, ?_⟩
    · rw [hmain, if_pos hside]
      simp [mapGet_mapSet_self]
    · rw [hmain]
      simp [hasRoundResult]
    · intro m2 ent2 pl2 hpl2
      rw [hmain, if_pos hside] at hpl2 ⊢
      simp only at hpl2
      simp [moveHandler, mapGet_mapSet_self, hpl2, hstatus, hneq, hai1, truthy,
        hasRoundResult]
  · have hmain : moveHandler st sid gid "" ent =
        ({ st with games := (mapSet st.games gid
              { g with player2 := { g.player2 with move := some "" } }) },
         [(sid, Event.waiting), (g.player1.odId, Event.opponentMoved)]) := by
      simp [moveHandler, hg, hp, hstatus, hside, hai1, truthy]
    refine ⟨?_, ?_, ?_⟩
    · rw [hmain, if_neg hside]
      simp [mapGet_mapSet_self]
    · rw [hmain]
      simp [hasRoundResult]
    · intro m2 ent2 pl2 hpl2
      rw [hmain, if_neg hside] at hpl2 ⊢
      simp only at hpl2
      simp [moveHandler, mapGet_mapSet_self, hpl2, hstatus, hai2, truthy,
        hasRoundResult]

end AceArena

namespace AceArena

theorem C10_falsy_move_stalls_witness :
    mapGet (moveHandler exStateFresh "a" "g1" "" ⟨"x", 0, 0⟩).1.games "g1" =
      some { exGameFresh with player1 := { exGameFresh.player1 with move := some "" } } ∧
    hasRoundResult (moveHandler exStateFresh "a" "g1" "" ⟨"x", 0, 0⟩).2 = false := by
  have h := C10_falsy_move_stalls exStateFresh "g1" "a" exGameFresh
    ⟨"a", "Alice", some "g1"⟩ ⟨"x", 0, 0⟩ rfl rfl rfl rfl rfl (by decide)
  exact ⟨by simpa [exGameFresh] using h.1, h.2.1⟩

/-- Counterexample to claim C1 as stated: in a fresh human-vs-human
session, the disconnect of side `b` emits OpponentLeft and ends the
session, yet the leaderboard is untouched — the remaining side's wins do
not become 1 and the leaver's losses do not become 1. -/
theorem C1_counterexample :
    (disconnectHandler exStateP1Rock "b").1.leaderboard = exStateP1Rock.leaderboard ∧
    (disconnectHandler exStateP1Rock "b").2 =
      [("a", Event.opponentLeft "Opponent disconnected")] ∧
    (mapGet (disconnectHandler exStateP1Rock "b").1.games "g1").map
        (fun g => g.status) = some "ended" ∧
    ¬ ((mapGet (disconnectHandler exStateP1Rock "b").1.leaderboard "a").map
        (fun e => e.wins) = some 1) ∧
    ¬ ((mapGet (disconnectHandler exStateP1Rock "b").1.leaderboard "b").map
        (fun e => e.losses) = some 1) := by decide

/-- Claim C1 (amended): when one side of an active human-vs-human
session disconnects, the remaining side receives an OpponentLeft
notification and the session status becomes ended, but the disconnect
path never touches the leaderboard: no win is credited to the remaining
side and no loss to the leaver (forfeit attribution happens only in the
explicit leave-game handler). -/
theorem C1_disconnect_amended :
    (∀ (st : ServerState) (sid : String),
      (disconnectHandler st sid).1.leaderboard = st.leaderboard) ∧
    (∀ (st : ServerState) (sid gid : String) (g : Game) (pl : Player),
      mapGet st.players sid = some pl → pl.currentGame = some gid →
      mapGet st.games gid = some g → g.status = "playing" →
      (if g.player1.odId = sid then g.player2 else g.player1).isAI = false →
      mapGet (disconnectHandler st sid).1.games gid = some { g with status := "ended" } ∧
      (disconnectHandler st sid).2 =
        [((if g.player1.odId = sid then g.player2 else g.player1).odId,
          Event.opponentLeft "Opponent disconnected")]) := by
  constructor
  · intro st sid
    rcases hx : mapGet st.players sid with _ | pl <;> simp [disconnectHandler, hx]
  · intro st sid gid g pl hp hcg hg hstatus hai
    simp [disconnectHandler, hp, disconnectGames, hcg, hg, hstatus, hai,
      mapGet_mapSet_self]

theorem C1_disconnect_amended_witness :
    mapGet (disconnectHandler exStateFresh "b").1.games "g1" =
      some { exGameFresh with status := "ended" } ∧
    (disconnectHandler exStateFresh "b").2 =
      [("a", Event.opponentLeft "Opponent disconnected")] := by
  have h := C1_disconnect_amended.2 exStateFresh "b" "g1" exGameFresh
    ⟨"b", "Bob", some "g1"⟩ rfl rfl rfl rfl (by decide)
  exact ⟨h.1, by simpa [exGameFresh] using h.2⟩

/-- Counterexample to claim C2 as stated: the registered connection `c`
occupies neither side of the active session g1, yet its move submission
is not rejected — it is recorded on player2's pending-move slot (the
session state changes) and the handler emits waiting/opponent-moved
notices instead of any error. -/
theorem C2_counterexample :
    (mapGet (moveHandler exStateFresh "c" "g1" "rock" ⟨"x", 0, 0⟩).1.games "g1").map
        (fun g => g.player2.move) = some (some "rock") ∧
    ¬ (mapGet (moveHandler exStateFresh "c" "g1" "rock" ⟨"x", 0, 0⟩).1.games "g1"
        = mapGet exStateFresh.games "g1") ∧
    (moveHandler exStateFresh "c" "g1" "rock" ⟨"x", 0, 0⟩).2 =
      [("c", Event.waiting), ("a", Event.opponentMoved)] := by decide

/-- Claim C2 (amended): a move submission against an existing active
session by a connection id that matches neither side is not rejected:
there is no participant check, so the caller is treated as player2 and
the move is recorded on player2's side; when the (human) player1 side
has no truthy pending move the handler then emits waiting/opponent-moved
notices, and no error notice of any kind is sent. -/
theorem C2_not_a_participant_amended
    (st : ServerState) (gid sid : String) (g : Game) (pl : Player)
    (move : String) (ent : Entropy)
    (hg : mapGet st.games gid = some g)
    (hp : mapGet st.players sid = some pl)
    (hstatus : g.status = "playing")
    (hnot1 : g.player1.odId ≠ sid)
    (hai1 : g.player1.isAI = false)
    (hopp : truthy g.player1.move = false) :
    mapGet (moveHandler st sid gid move ent).1.games gid =
      some { g with player2 := { g.player2 with move := some move } } ∧
    (moveHandler st sid gid move ent).2 =
      [(sid, Event.waiting), (g.player1.odId, Event.opponentMoved)] ∧
    ∀ msg, (sid, Event.errorMsg msg) ∉ (moveHandler st sid gid move ent).2 := by
  have hmain : moveHandler st sid gid move ent =
      ({ st with games := (mapSet st.games gid
            { g with player2 := { g.player2 with move := some move } }) },
       [(sid, Event.waiting), (g.player1.odId, Event.opponentMoved)]) := by
    simp [moveHandler, hg, hp, hstatus, hnot1, hai1, hopp]
  rw [hmain]
  refine ⟨by simp [mapGet_mapSet_self], rfl, ?_⟩
  intro msg
  simp

theorem C2_not_a_participant_amended_witness :
    mapGet (moveHandler exStateFresh "c" "g1" "paper" ⟨"x", 0, 0⟩).1.games "g1" =
      some { exGameFresh with player2 := { exGameFresh.player2 with move := some "paper" } } ∧
    (moveHandler exStateFresh "c" "g1" "paper" ⟨"x", 0, 0⟩).2 =
      [("c", Event.waiting), ("a", Event.opponentMoved)] := by
  have h := C2_not_a_participant_amended exStateFresh "g1" "c" exGameFresh
    ⟨"c", "Carol", none⟩ "paper" ⟨"x", 0, 0⟩ rfl rfl rfl (by decide) rfl rfl
  exact ⟨h.1, by simpa [exGameFresh] using h.2.1⟩

/-- Claim C3, evaluated at the failing input: in the active RPS session
g1 where player1 already recorded "rock", player2 submits the malformed
move "lizard".  Instead of being rejected before resolution, the round
resolves: the round counter advances to 2, player2 (the malformed side)
is awarded +15 because `getRPSResult` classifies any unknown first move
as a "p2" win, round-result events are emitted, and the leaderboard is
updated — contradicting the required invalid-state rejection. -/
theorem C3_code_evaluation :
    ¬ ("lizard" ∈ rpsMoves) ∧
    getRPSResult (some "rock") (some "lizard") = "p2" ∧
    (mapGet (moveHandler exStateP1Rock "b" "g1" "lizard" ⟨"x", 0, 0⟩).1.games "g1").map
        (fun g => (g.round, g.player1.score, g.player2.score)) = some (2, 0, 15) ∧
    hasRoundResult (moveHandler exStateP1Rock "b" "g1" "lizard" ⟨"x", 0, 0⟩).2 = true ∧
    (mapGet (moveHandler exStateP1Rock "b" "g1" "lizard" ⟨"x", 0, 0⟩).1.leaderboard "b").map
        (fun e => e.wins) = some 1 := by decide

/-- Claim C4, evaluated at the failing input: a registered connection
sends join_queue with the unrecognized game type "checkers".  The
duplicate check short-circuits on the undefined queue, but the
unconditional `queues[gameType].push` then throws a TypeError — an
uncaught, process-fatal exception; no InvalidGameType (or any) notice is
emitted and no queue is changed before the throw. -/
theorem C4_code_evaluation :
    queuesGet exStateFresh.queues "checkers" = none ∧
    joinQueueHandler exStateFresh "c" "checkers" "g9" =
      .error (JsError.typeError "Cannot read properties of undefined (reading push)") :=
  ⟨rfl, rfl⟩

/-- Claim C5, evaluated at the failing input: in the RPS session g1,
player1 (`a`) has recorded "rock" and player2 (`b`) completes the round
with "paper".  Player2 wins (+15, the scores fields are correct), yet
because the emitted move/result fields select sides through
`processRound`'s hard-coded `isPlayer1: true`, `b` is told its own move
was "rock", its opponent's "paper", and that it lost, while `a` is told
its own move was "paper" — both recipients receive player1-perspective
display fields and the submitter receives player1's result. -/
theorem C5_code_evaluation :
    (moveHandler exStateP1Rock "b" "g1" "paper" ⟨"x", 0, 0⟩).2 =
      [("b", Event.roundResult 1 (some (Display.str "rock"))
          (some (Display.str "paper")) (some "lose") 15 0),
       ("a", Event.roundResult 1 (some (Display.str "paper"))
          (some (Display.str "rock")) (some "lose") 0 15)] ∧
    (mapGet (moveHandler exStateP1Rock "b" "g1" "paper" ⟨"x", 0, 0⟩).1.games "g1").map
        (fun g => g.player2.score) = some 15 := by decide

/-- Counterexample to claim C6 as stated: after `a` explicitly leaves
session g1 it is ended, but when `b` then leaves the same (ended)
session the leave handler — which never checks the status — issues a
second forfeit: the leaderboard changes again and `a` is credited a
win by the ended session. -/
theorem C6_counterexample :
    (mapGet (leaveGameHandler exStateFresh "a").1.games "g1").map
        (fun g => g.status) = some "ended" ∧
    ¬ ((leaveGameHandler (leaveGameHandler exStateFresh "a").1 "b").1.leaderboard
        = (leaveGameHandler exStateFresh "a").1.leaderboard) ∧
    (mapGet (leaveGameHandler (leaveGameHandler exStateFresh "a").1 "b").1.leaderboard "a").map
        (fun e => e.wins) = some 1 := by decide

/-- Claim C6 (amended): once a session's status is ended, a move
submission against it is rejected with the invalid-state notice and the
whole state is left unchanged, and a disconnect issues no forfeit (the
leaderboard and the game entry are untouched and nothing is emitted);
however the explicit leave-game handler never checks the status: leaving
an ended session still issues a forfeit win to the non-AI opponent and a
loss to the leaver, so a forfeit can be attributed more than once per
session. -/
theorem C6_ended_session_amended :
    (∀ (st : ServerState) (sid gid : String) (g : Game) (pl : Player)
        (m : String) (ent : Entropy),
      mapGet st.games gid = some g → mapGet st.players sid = some pl →
      g.status = "ended" →
      moveHandler st sid gid m ent = (st, [(sid, Event.errorMsg "Invalid game state")])) ∧
    (∀ (st : ServerState) (sid gid : String) (g : Game) (pl : Player),
      mapGet st.players sid = some pl → pl.currentGame = some gid →
      mapGet st.games gid = some g → g.status = "ended" →
      (disconnectHandler st sid).1.leaderboard = st.leaderboard ∧
      mapGet (disconnectHandler st sid).1.games gid = some g ∧
      (disconnectHandler st sid).2 = []) ∧
    (∀ (st : ServerState) (sid gid : String) (g : Game) (pl : Player),
      mapGet st.players sid = some pl → pl.currentGame = some gid →
      mapGet st.games gid = some g → g.status = "ended" →
      (if g.player1.odId = sid then g.player2 else g.player1).isAI = false →
      (leaveGameHandler st sid).1.leaderboard =
        updateLeaderboard (updateLeaderboard st.leaderboard
          (if g.player1.odId = sid then g.player2 else g.player1).odId true) sid false) := by
  refine ⟨?_, ?_, ?_⟩
  · intro st sid gid g pl m ent hg hp hstatus
    simp [moveHandler, hg, hp, hstatus]
  · intro st sid gid g pl hp hcg hg hstatus
    simp [disconnectHandler, hp, disconnectGames, hcg, hg, hstatus]
  · intro st sid gid g pl hp hcg hg hstatus hai
    simp [leaveGameHandler, hp, hcg, hg, hai]

theorem C6_ended_session_amended_witness :
    moveHandler exStateEnded "a" "g1" "rock" ⟨"x", 0, 0⟩ =
      (exStateEnded, [("a", Event.errorMsg "Invalid game state")]) ∧
    (disconnectHandler exStateEnded "a").1.leaderboard = exStateEnded.leaderboard ∧
    (disconnectHandler exStateEnded "a").2 = [] := by
  refine ⟨?_, ?_, ?_⟩
  · exact C6_ended_session_amended.1 exStateEnded "a" "g1" exGameEnded
      ⟨"a", "Alice", some "g1"⟩ "rock" ⟨"x", 0, 0⟩ rfl rfl rfl
  · exact (C6_ended_session_amended.2.1 exStateEnded "a" "g1" exGameEnded
      ⟨"a", "Alice", some "g1"⟩ rfl rfl rfl rfl).1
  · exact (C6_ended_session_amended.2.1 exStateEnded "a" "g1" exGameEnded
      ⟨"a", "Alice", some "g1"⟩ rfl rfl rfl rfl).2.2

/-- Counterexample to claim C7 as stated: re-registering the known
connection `a` (currently named Alice, inside session g1) under the name
"Zed" does not leave the existing player record unchanged — the record
is overwritten with the new name and its session reference is reset. -/
theorem C7_counterexample :
    mapGet (registerHandler exStateFresh "a" (some "Zed")).1.players "a" =
      some ⟨"a", "Zed", none⟩ ∧
    ¬ (mapGet (registerHandler exStateFresh "a" (some "Zed")).1.players "a"
        = mapGet exStateFresh.players "a") := by decide

/-- Claim C7 (amended): register always overwrites the player record —
the newly requested name is used and the session reference is reset to
null — while the leaderboard entry is created only if absent and is
otherwise left fully unchanged (keeping the registration-time name
snapshot and stats); games and queues are untouched.  Registering twice
with the same connection id and name is observationally equal to
registering once (same state and same emitted notification). -/
theorem C7_register_amended :
    (∀ (st : ServerState) (sid : String) (n : Option String),
      mapHas st.leaderboard sid = true →
      (registerHandler st sid n).1.leaderboard = st.leaderboard ∧
      mapGet (registerHandler st sid n).1.players sid = some ⟨sid, jsName sid n, none⟩ ∧
      (registerHandler st sid n).1.games = st.games ∧
      (registerHandler st sid n).1.queues = st.queues) ∧
    (∀ (st : ServerState) (sid : String) (n : Option String),
      registerHandler (registerHandler st sid n).1 sid n = registerHandler st sid n) := by
  constructor
  · intro st sid n h
    simp [registerHandler, h, mapGet_mapSet_self]
  · intro st sid n
    by_cases h : mapHas st.leaderboard sid = true
    · simp [registerHandler, h, mapSet_mapSet_self]
    · simp [registerHandler, h, mapHas_mapSet_self, mapSet_mapSet_self]

theorem C7_register_amended_witness :
    (registerHandler exStateFresh "a" (some "Zed")).1.leaderboard =
      exStateFresh.leaderboard ∧
    mapGet (registerHandler exStateFresh "a" (some "Zed")).1.players "a" =
      some ⟨"a", jsName "a" (some "Zed"), none⟩ := by
  have h := C7_register_amended.1 exStateFresh "a" (some "Zed") (by decide)
  exact ⟨h.1, h.2.1⟩

end AceArena
